import Mathlib

/-!
Verification of the persistence backend of the todo2 application
(`src-tauri/src/main.rs`): configuration record handling, storage-path
resolution, load/save of the two JSON collections, and the
`has_todos_in_list` query.

The filesystem and process environment are modelled explicitly by a `World`:
a map from path strings to file states, a result for determining the
executable's directory, and the state of the configuration file
(`config.json`, stored next to the executable).  The configuration file is
modelled structurally (a parsed record, or a malformed/unreadable marker),
since `serde_json` round-trips the `AppConfig` record; data files
(`todos.json`, `lists.json`) always use distinct names from `config.json`,
so they are kept in the path-indexed map.  Each Tauri command from the
source becomes a Lean function; commands that mutate shared state return
the result together with the post-state, because in the source a mutation
performed before a later failure is not rolled back.
-/

namespace Todo2

/-- State of one filesystem path: absent, a readable regular file with the
given text content, a directory, or an existing file whose read fails
(e.g. permission denied). -/
inductive FileState where
  | absent
  | file (content : String)
  | dir
  | unreadable
deriving DecidableEq

/-- The `AppConfig` struct from the source: `storage_path` and optional
`theme`, serialized to `config.json`. -/
structure AppConfig where
  storage_path : String
  theme : Option String
deriving DecidableEq

/-- State of the `config.json` file next to the executable: absent, a
well-formed serialized record, present but not parseable as the record
shape, or present but unreadable. -/
inductive ConfigFile where
  | absent
  | valid (c : AppConfig)
  | malformed
  | unreadable
deriving DecidableEq

/-- The ambient filesystem and process environment. `fs` gives the state of
each data-file path, `writable` tells whether `fs::write` to a path would
succeed, `exeDir` is the result of resolving the executable's containing
directory, `configFile` is the state of `config.json`, and
`configWritable` tells whether writing `config.json` would succeed. -/
structure World where
  fs : String → FileState
  writable : String → Bool
  exeDir : Except String String
  configFile : ConfigFile
  configWritable : Bool

/-- Full mutable state of the running process: the world plus the contents
of the `StoragePathState` mutex (the in-memory storage-path override). -/
structure Sys where
  world : World
  mem : String

/-- `get_app_dir` from the source: the executable's containing directory,
or an error. -/
def get_app_dir (w : World) : Except String String :=
  w.exeDir

/-- `load_or_create_config` from the source: resolve the app dir; if
`config.json` exists read and parse it, otherwise write a default record
(empty storage path, no theme) and return it.  Creation is the only world
mutation, so the (possibly updated) world is returned alongside. -/
def load_or_create_config (w : World) : Except String (AppConfig × World) :=
  match get_app_dir w with
  | Except.error e => Except.error e
  | Except.ok _ =>
    match w.configFile with
    | ConfigFile.valid c => Except.ok (c, w)
    | ConfigFile.malformed => Except.error "config format error"
    | ConfigFile.unreadable => Except.error "config read error"
    | ConfigFile.absent =>
      let c : AppConfig := { storage_path := "", theme := none }
      if w.configWritable then
        Except.ok (c, { w with configFile := ConfigFile.valid c })
      else
        Except.error "config write error"

/-- `save_config` from the source: resolve the app dir, serialize the whole
record and overwrite `config.json`. -/
def save_config (config : AppConfig) (w : World) : Except String World :=
  match get_app_dir w with
  | Except.error e => Except.error e
  | Except.ok _ =>
    if w.configWritable then
      Except.ok { w with configFile := ConfigFile.valid config }
    else
      Except.error "config write error"

/-- `set_theme` command: load (or create) the record, set its `theme`
field, and save the whole record back. -/
def set_theme (theme : String) (w : World) : Except String World :=
  match load_or_create_config w with
  | Except.error e => Except.error e
  | Except.ok (config, w1) => save_config { config with theme := some theme } w1

/-- `get_theme` command: load (or create) the record and return its theme,
defaulting to `"light"` when absent. -/
def get_theme (w : World) : Except String (String × World) :=
  match load_or_create_config w with
  | Except.error e => Except.error e
  | Except.ok (config, w1) => Except.ok (config.theme.getD "light", w1)

/-- `load_storage_path` command: load (or create) the record and return its
`storage_path` field. -/
def load_storage_path (w : World) : Except String (String × World) :=
  match load_or_create_config w with
  | Except.error e => Except.error e
  | Except.ok (config, w1) => Except.ok (config.storage_path, w1)

/-- The startup sequence of `main`: load or create the configuration,
falling back to the all-defaults record on any error, and initialize the
in-memory storage-path state from its `storage_path` field. -/
def restart_init (w : World) : Sys :=
  match load_or_create_config w with
  | Except.ok (config, w1) => { world := w1, mem := config.storage_path }
  | Except.error _ => { world := w, mem := "" }

/-- The `storage_path` field an observer of the persisted configuration
sees: the stored value when the file is well-formed, the default `""` when
the file is absent (absence is the all-defaults record), and undefined
when the file is malformed or unreadable. -/
def persisted_storage_path (w : World) : Option String :=
  match w.configFile with
  | ConfigFile.valid c => some c.storage_path
  | ConfigFile.absent => some ""
  | _ => none

/-- The `theme` field an observer of the persisted configuration sees,
with the same conventions as `persisted_storage_path`. -/
def persisted_theme (w : World) : Option (Option String) :=
  match w.configFile with
  | ConfigFile.valid c => some c.theme
  | ConfigFile.absent => some none
  | _ => none

/-- `std::fs::read_to_string`: the content of a readable regular file,
an error otherwise. -/
def read_to_string (w : World) (p : String) : Except String String :=
  match w.fs p with
  | FileState.file content => Except.ok content
  | FileState.absent => Except.error "No such file or directory"
  | FileState.dir => Except.error "Is a directory"
  | FileState.unreadable => Except.error "Permission denied"

/-- `std::fs::write`: create or truncate the file at `p` with the given
content.  Fails on a directory or when the world marks the path
unwritable (missing parent, permissions, ...). -/
def fs_write (w : World) (p : String) (content : String) : Except String World :=
  match w.fs p with
  | FileState.dir => Except.error "Is a directory"
  | _ =>
    if w.writable p then
      Except.ok { w with fs := fun q => if q = p then FileState.file content else w.fs q }
    else
      Except.error "write error"

/-- `Path::exists` over the modelled filesystem. -/
def path_exists (w : World) (p : String) : Bool :=
  w.fs p ≠ FileState.absent

/-- `Path::is_dir` over the modelled filesystem. -/
def is_dir (w : World) (p : String) : Bool :=
  w.fs p = FileState.dir

/-- The path computation shared by the four load/save commands: when the
in-memory override is empty, join the executable's directory with the
fixed filename, otherwise join the override with it. -/
def resolve_data_path (s : Sys) (filename : String) : Except String String :=
  if s.mem.isEmpty then
    match get_app_dir s.world with
    | Except.error e => Except.error e
    | Except.ok d => Except.ok (d ++ "/" ++ filename)
  else
    Except.ok (s.mem ++ "/" ++ filename)

/-- `load_todos` command: read the resolved `todos.json`; on any read
failure return the literal `"[]"`. -/
def load_todos (s : Sys) : Except String String :=
  match resolve_data_path s "todos.json" with
  | Except.error e => Except.error e
  | Except.ok path =>
    match read_to_string s.world path with
    | Except.ok content => Except.ok content
    | Except.error _ => Except.ok "[]"

/-- `save_todos` command: write the payload verbatim to the resolved
`todos.json`. -/
def save_todos (todo : String) (s : Sys) : Except String Unit × Sys :=
  match resolve_data_path s "todos.json" with
  | Except.error e => (Except.error e, s)
  | Except.ok path =>
    match fs_write s.world path todo with
    | Except.error e => (Except.error e, s)
    | Except.ok w1 => (Except.ok (), { s with world := w1 })

/-- `load_lists` command: read the resolved `lists.json`; on any read
failure return the literal `"[]"`. -/
def load_lists (s : Sys) : Except String String :=
  match resolve_data_path s "lists.json" with
  | Except.error e => Except.error e
  | Except.ok path =>
    match read_to_string s.world path with
    | Except.ok content => Except.ok content
    | Except.error _ => Except.ok "[]"

/-- `save_lists` command: write the payload verbatim to the resolved
`lists.json`. -/
def save_lists (lists : String) (s : Sys) : Except String Unit × Sys :=
  match resolve_data_path s "lists.json" with
  | Except.error e => (Except.error e, s)
  | Except.ok path =>
    match fs_write s.world path lists with
    | Except.error e => (Except.error e, s)
    | Except.ok w1 => (Except.ok (), { s with world := w1 })

/-- `set_storage_path` command, translated branch for branch.  The empty
path clears the in-memory override first and persists afterwards; a
non-empty path is validated, then persisted, then the in-memory override
is updated.  Since the in-memory mutex assignment is not rolled back when
a later step fails, the post-state is returned alongside the result. -/
def set_storage_path (path : String) (s : Sys) : Except String Unit × Sys :=
  if path.isEmpty then
    let s0 : Sys := { s with mem := "" }
    match load_or_create_config s0.world with
    | Except.error e => (Except.error e, s0)
    | Except.ok (config, w1) =>
      match save_config { config with storage_path := "" } w1 with
      | Except.error e => (Except.error e, { s0 with world := w1 })
      | Except.ok w2 => (Except.ok (), { s0 with world := w2 })
  else if path_exists s.world path = false then
    (Except.error "Path does not exist", s)
  else if is_dir s.world path = false then
    (Except.error "Path is not a directory", s)
  else
    match load_or_create_config s.world with
    | Except.error e => (Except.error e, s)
    | Except.ok (config, w1) =>
      match save_config { config with storage_path := path } w1 with
      | Except.error e => (Except.error e, { s with world := w1 })
      | Except.ok w2 => (Except.ok (), { world := w2, mem := path })

/-- Generic JSON values, as produced by `serde_json::Value`.  Numbers are
kept as their raw text, since nothing in the source inspects them. -/
inductive Json where
  | null
  | bool (b : Bool)
  | num (raw : String)
  | str (s : String)
  | arr (elems : List Json)
  | obj (fields : List (String × Json))

/-- Lookup in a serde_json object map built by insertion: a duplicate key
overwrites, so the last binding wins. -/
def lookup_last (fields : List (String × Json)) (key : String) : Option Json :=
  match fields with
  | [] => none
  | (k, v) :: rest =>
    match lookup_last rest key with
    | some r => some r
    | none => if k = key then some v else none

/-- `Value::get` on an object, `None` on every other value. -/
def Json.get (j : Json) (key : String) : Option Json :=
  match j with
  | Json.obj fields => lookup_last fields key
  | _ => none

/-- `Value::as_str`. -/
def Json.asStr : Json → Option String
  | Json.str s => some s
  | _ => none

/-- `Value::as_array`. -/
def Json.asArray : Json → Option (List Json)
  | Json.arr l => some l
  | _ => none

/-- JSON insignificant whitespace. -/
def isJsonWs (c : Char) : Bool :=
  c = ' ' ∨ c = '\t' ∨ c = '\n' ∨ c = '\r'

/-- Drop leading JSON whitespace. -/
def skipWs : List Char → List Char
  | [] => []
  | c :: cs => if isJsonWs c then skipWs cs else c :: cs

/-- Value of one hex digit. -/
def hexVal (c : Char) : Option Nat :=
  if '0' ≤ c ∧ c ≤ '9' then some (c.toNat - '0'.toNat)
  else if 'a' ≤ c ∧ c ≤ 'f' then some (c.toNat - 'a'.toNat + 10)
  else if 'A' ≤ c ∧ c ≤ 'F' then some (c.toNat - 'A'.toNat + 10)
  else none

/-- Four hex digits, as in a `\uXXXX` escape. -/
def parseHex4 : List Char → Option (Nat × List Char)
  | c1 :: c2 :: c3 :: c4 :: rest =>
    match hexVal c1, hexVal c2, hexVal c3, hexVal c4 with
    | some a, some b, some c, some d => some (((a * 16 + b) * 16 + c) * 16 + d, rest)
    | _, _, _, _ => none
  | _ => none

/-- Body of a JSON string after the opening quote: decode escapes, stop at
the closing quote, reject raw control characters and lone surrogates. -/
def parseStringBody (fuel : Nat) (cs : List Char) : Except String (List Char × List Char) :=
  match fuel with
  | 0 => Except.error "recursion limit exceeded"
  | Nat.succ f =>
    match cs with
    | [] => Except.error "EOF while parsing a string"
    | c :: rest =>
      if c = '"' then Except.ok ([], rest)
      else if c = '\\' then
        match rest with
        | [] => Except.error "EOF while parsing a string"
        | e :: rest2 =>
          if e = '"' ∨ e = '\\' ∨ e = '/' then
            (parseStringBody f rest2).map (fun r => (e :: r.1, r.2))
          else if e = 'b' then
            (parseStringBody f rest2).map (fun r => (Char.ofNat 8 :: r.1, r.2))
          else if e = 'f' then
            (parseStringBody f rest2).map (fun r => (Char.ofNat 12 :: r.1, r.2))
          else if e = 'n' then
            (parseStringBody f rest2).map (fun r => ('\n' :: r.1, r.2))
          else if e = 'r' then
            (parseStringBody f rest2).map (fun r => ('\r' :: r.1, r.2))
          else if e = 't' then
            (parseStringBody f rest2).map (fun r => ('\t' :: r.1, r.2))
          else if e = 'u' then
            match parseHex4 rest2 with
            | none => Except.error "invalid hex escape"
            | some (n, rest3) =>
              if 0xD800 ≤ n ∧ n ≤ 0xDBFF then
                match rest3 with
                | '\\' :: 'u' :: rest4 =>
                  match parseHex4 rest4 with
                  | none => Except.error "invalid hex escape"
                  | some (m, rest5) =>
                    if 0xDC00 ≤ m ∧ m ≤ 0xDFFF then
                      (parseStringBody f rest5).map
                        (fun r =>
                          (Char.ofNat (0x10000 + (n - 0xD800) * 0x400 + (m - 0xDC00)) :: r.1,
                           r.2))
                    else Except.error "lone leading surrogate in hex escape"
                | _ => Except.error "unexpected end of hex escape"
              else if 0xDC00 ≤ n ∧ n ≤ 0xDFFF then
                Except.error "lone trailing surrogate in hex escape"
              else
                (parseStringBody f rest3).map (fun r => (Char.ofNat n :: r.1, r.2))
          else Except.error "invalid escape"
      else if c.toNat < 0x20 then
        Except.error "control character found while parsing a string"
      else
        (parseStringBody f rest).map (fun r => (c :: r.1, r.2))

/-- Longest digit run at the front of the input. -/
def takeDigits : List Char → List Char × List Char
  | [] => ([], [])
  | c :: cs =>
    if c.isDigit then
      match takeDigits cs with
      | (d, r) => (c :: d, r)
    else ([], c :: cs)

/-- Optional exponent part of a JSON number, then finish. -/
def numAfterFrac (acc : List Char) (cs : List Char) : Except String (Json × List Char) :=
  match cs with
  | [] => Except.ok (Json.num (String.mk acc), [])
  | e :: r =>
    if e = 'e' ∨ e = 'E' then
      match
        match r with
        | '+' :: rr => (['+'], rr)
        | '-' :: rr => (['-'], rr)
        | _ => (([] : List Char), r)
      with
      | (sgn, r1) =>
        match takeDigits r1 with
        | ([], _) => Except.error "invalid number"
        | (ds, r2) => Except.ok (Json.num (String.mk (acc ++ e :: (sgn ++ ds))), r2)
    else Except.ok (Json.num (String.mk acc), cs)

/-- Optional fraction part of a JSON number. -/
def numAfterInt (acc : List Char) (cs : List Char) : Except String (Json × List Char) :=
  match cs with
  | '.' :: r =>
    match takeDigits r with
    | ([], _) => Except.error "invalid number"
    | (ds, r2) => numAfterFrac (acc ++ '.' :: ds) r2
  | _ => numAfterFrac acc cs

/-- A JSON number (strict grammar: optional minus, no leading zeros,
optional fraction and exponent). -/
def parseNumber (cs : List Char) : Except String (Json × List Char) :=
  match
    match cs with
    | '-' :: r => (['-'], r)
    | _ => (([] : List Char), cs)
  with
  | (sign, cs1) =>
    match cs1 with
    | [] => Except.error "EOF while parsing a number"
    | c :: r =>
      if c = '0' then numAfterInt (sign ++ ['0']) r
      else if c.isDigit then
        match takeDigits r with
        | (ds, r2) => numAfterInt (sign ++ c :: ds) r2
      else Except.error "invalid number"

/-- Match a fixed keyword tail (`ull`, `rue`, `alse`). -/
def expectLit : List Char → List Char → Json → Except String (Json × List Char)
  | cs, [], v => Except.ok (v, cs)
  | c :: cs, l :: ls, v =>
    if c = l then expectLit cs ls v else Except.error "expected ident"
  | [], _ :: _, _ => Except.error "EOF while parsing a value"

/-- Which production the recursive-descent parser is working on: a single
value, the elements of an array after `[`, or the members of an object
after a brace. -/
inductive PMode where
  | value
  | elems
  | members

/-- Intermediate parse results, one per mode. -/
inductive PRes where
  | val (j : Json)
  | elems (l : List Json)
  | members (l : List (String × Json))

/-- Fuel-bounded recursive-descent JSON parser (the model of serde_json's
value parser, which likewise bounds recursion).  In `value` mode the input
starts at a value; in `elems`/`members` mode it starts at the first
element/member, with the opening bracket already consumed and no leading
whitespace. -/
def parseP (fuel : Nat) (m : PMode) (cs : List Char) : Except String (PRes × List Char) :=
  match fuel with
  | 0 => Except.error "recursion limit exceeded"
  | Nat.succ f =>
    match m with
    | PMode.value =>
      match cs with
      | [] => Except.error "EOF while parsing a value"
      | c :: rest =>
        if c = 'n' then
          (expectLit rest ['u', 'l', 'l'] Json.null).map (fun r => (PRes.val r.1, r.2))
        else if c = 't' then
          (expectLit rest ['r', 'u', 'e'] (Json.bool true)).map (fun r => (PRes.val r.1, r.2))
        else if c = 'f' then
          (expectLit rest ['a', 'l', 's', 'e'] (Json.bool false)).map
            (fun r => (PRes.val r.1, r.2))
        else if c = '"' then
          (parseStringBody (rest.length + 1) rest).map
            (fun r => (PRes.val (Json.str (String.mk r.1)), r.2))
        else if c = '[' then
          match skipWs rest with
          | ']' :: r => Except.ok (PRes.val (Json.arr []), r)
          | cs1 =>
            match parseP f PMode.elems cs1 with
            | Except.error e => Except.error e
            | Except.ok (PRes.elems l, r) => Except.ok (PRes.val (Json.arr l), r)
            | Except.ok _ => Except.error "internal parser invariant"
        else if c = '{' then
          match skipWs rest with
          | '}' :: r => Except.ok (PRes.val (Json.obj []), r)
          | cs1 =>
            match parseP f PMode.members cs1 with
            | Except.error e => Except.error e
            | Except.ok (PRes.members l, r) => Except.ok (PRes.val (Json.obj l), r)
            | Except.ok _ => Except.error "internal parser invariant"
        else if c = '-' ∨ c.isDigit then
          (parseNumber (c :: rest)).map (fun r => (PRes.val r.1, r.2))
        else Except.error "expected value"
    | PMode.elems =>
      match parseP f PMode.value cs with
      | Except.error e => Except.error e
      | Except.ok (PRes.val v, r) =>
        match skipWs r with
        | ',' :: r2 =>
          match parseP f PMode.elems (skipWs r2) with
          | Except.error e => Except.error e
          | Except.ok (PRes.elems l, r3) => Except.ok (PRes.elems (v :: l), r3)
          | Except.ok _ => Except.error "internal parser invariant"
        | ']' :: r2 => Except.ok (PRes.elems [v], r2)
        | _ => Except.error "expected comma or closing bracket"
      | Except.ok _ => Except.error "internal parser invariant"
    | PMode.members =>
      match cs with
      | '"' :: rest =>
        match parseStringBody (rest.length + 1) rest with
        | Except.error e => Except.error e
        | Except.ok (keyChars, r) =>
          match skipWs r with
          | ':' :: r2 =>
            match parseP f PMode.value (skipWs r2) with
            | Except.error e => Except.error e
            | Except.ok (PRes.val v, r3) =>
              match skipWs r3 with
              | ',' :: r4 =>
                match parseP f PMode.members (skipWs r4) with
                | Except.error e => Except.error e
                | Except.ok (PRes.members l, r5) =>
                  Except.ok (PRes.members ((String.mk keyChars, v) :: l), r5)
                | Except.ok _ => Except.error "internal parser invariant"
              | '}' :: r4 => Except.ok (PRes.members [(String.mk keyChars, v)], r4)
              | _ => Except.error "expected comma or closing brace"
            | Except.ok _ => Except.error "internal parser invariant"
          | _ => Except.error "expected colon"
      | _ => Except.error "key must be a string"

/-- `serde_json::from_str::<Vec<Value>>`: parse one JSON value, require it
to be an array, and require only whitespace after it. -/
def from_str_vec (s : String) : Except String (List Json) :=
  match parseP (2 * s.length + 2) PMode.value (skipWs s.data) with
  | Except.error e => Except.error e
  | Except.ok (PRes.val (Json.arr l), rest) =>
    if (skipWs rest).isEmpty then Except.ok l
    else Except.error "trailing characters"
  | Except.ok (PRes.val _, _) => Except.error "invalid type: expected a sequence"
  | Except.ok _ => Except.error "internal parser invariant"

/-- The per-element test inside `has_todos_in_list`, combinator for
combinator from the source: the element's `id` is a string equal to
`list_id`, and its `todos` is a non-empty array, each side defaulting to
`false`. -/
def list_matches (list_id : String) (l : Json) : Bool :=
  (((l.get "id").bind Json.asStr).map (fun id => id == list_id)).getD false
    && (((l.get "todos").bind Json.asArray).map (fun todos => !todos.isEmpty)).getD false

/-- `has_todos_in_list` command: load the lists document, parse it as a
JSON array, and test whether some element matches. -/
def has_todos_in_list (list_id : String) (s : Sys) : Except String Bool :=
  match load_lists s with
  | Except.error e => Except.error e
  | Except.ok lists_str =>
    match from_str_vec lists_str with
    | Except.error e => Except.error e
    | Except.ok lists => Except.ok (lists.any (list_matches list_id))

/-- What a load returns once its path is resolved: the file's content when
it is a readable regular file, and the literal `"[]"` in every other case. -/
def read_or_empty (w : World) (p : String) : String :=
  match w.fs p with
  | FileState.file content => content
  | _ => "[]"

/-- The element test of `listHasTodos` transcribed from the specification's
words: some element has a string `id` field equal to `list_id` and a
non-empty array `todos` field; anything else counts as false. -/
def spec_list_matches (list_id : String) (j : Json) : Bool :=
  match j.get "id", j.get "todos" with
  | some (Json.str i), some (Json.arr ts) => i == list_id && decide (0 < ts.length)
  | _, _ => false

/-- A system whose lists document is `doc`, stored in the override
directory `d`. -/
def sys_with_lists (doc : String) : Sys :=
  { world :=
      { fs := fun p => if p = "d/lists.json" then FileState.file doc else FileState.absent
        writable := fun _ => true
        exeDir := Except.ok "app"
        configFile := ConfigFile.absent
        configWritable := true }
    mem := "d" }

theorem save_config_ok (c : AppConfig) (w w' : World)
    (h : save_config c w = Except.ok w') :
    (∃ d, w.exeDir = Except.ok d) ∧ w.configWritable = true ∧
      w' = { w with configFile := ConfigFile.valid c } := by
  unfold save_config get_app_dir at h
  split at h
  · simp at h
  · rename_i d hd
    split at h
    · rename_i hw
      simp only [Except.ok.injEq] at h
      exact ⟨⟨d, hd⟩, hw, h.symm⟩
    · simp at h

theorem load_or_create_ok (w : World) (c : AppConfig) (w1 : World)
    (h : load_or_create_config w = Except.ok (c, w1)) :
    (∃ d, w.exeDir = Except.ok d) ∧
      w1.configFile = ConfigFile.valid c ∧
      w1.fs = w.fs ∧ w1.writable = w.writable ∧ w1.exeDir = w.exeDir ∧
      w1.configWritable = w.configWritable := by
  unfold load_or_create_config get_app_dir at h
  split at h
  · simp at h
  · rename_i d hd
    split at h
    · rename_i c0 hc
      simp only [Except.ok.injEq, Prod.mk.injEq] at h
      obtain ⟨h1, h2⟩ := h
      subst h1; subst h2
      exact ⟨⟨d, hd⟩, hc, rfl, rfl, rfl, rfl⟩
    · simp at h
    · simp at h
    · split at h
      · rename_i hw
        simp only [Except.ok.injEq, Prod.mk.injEq] at h
        obtain ⟨h1, h2⟩ := h
        subst h1; subst h2
        exact ⟨⟨d, hd⟩, rfl, rfl, rfl, rfl, rfl⟩
      · simp at h

theorem load_or_create_of_valid (w : World) (c : AppConfig) (d : String)
    (hc : w.configFile = ConfigFile.valid c) (hd : w.exeDir = Except.ok d) :
    load_or_create_config w = Except.ok (c, w) := by
  unfold load_or_create_config get_app_dir
  rw [hd, hc]

theorem load_storage_path_of_valid (w : World) (c : AppConfig) (d : String)
    (hc : w.configFile = ConfigFile.valid c) (hd : w.exeDir = Except.ok d) :
    load_storage_path w = Except.ok (c.storage_path, w) := by
  unfold load_storage_path
  rw [load_or_create_of_valid w c d hc hd]

theorem restart_init_of_valid (w : World) (c : AppConfig) (d : String)
    (hc : w.configFile = ConfigFile.valid c) (hd : w.exeDir = Except.ok d) :
    restart_init w = { world := w, mem := c.storage_path } := by
  unfold restart_init
  rw [load_or_create_of_valid w c d hc hd]

/-- Any successful `set_storage_path` call, empty or not, ends with the
in-memory override equal to `path` and the configuration file holding a
well-formed record whose `storage_path` is `path`. -/
theorem set_storage_path_ok (path : String) (s s' : Sys)
    (h : set_storage_path path s = (Except.ok (), s')) :
    s'.mem = path ∧ (∃ d, s'.world.exeDir = Except.ok d) ∧
      ∃ config w1, load_or_create_config s.world = Except.ok (config, w1) ∧
        s'.world.configFile =
          ConfigFile.valid { storage_path := path, theme := config.theme } := by
  unfold set_storage_path at h
  split at h
  · rename_i hE
    have hpath : path = "" := (String.isEmpty_iff path).mp hE
    dsimp only at h
    split at h
    · simp at h
    · rename_i config w1 hl
      split at h
      · simp at h
      · rename_i w2 hs
        simp only [Prod.mk.injEq] at h
        obtain ⟨-, h2⟩ := h
        subst h2
        obtain ⟨-, -, hw2⟩ := save_config_ok _ _ _ hs
        obtain ⟨⟨d, hd⟩, -, -, -, he1, -⟩ := load_or_create_ok _ _ _ hl
        subst hw2
        refine ⟨hpath.symm, ⟨d, ?_⟩, ⟨config, w1, hl, by rw [hpath]⟩⟩
        simpa [he1] using hd
  · split at h
    · simp at h
    · split at h
      · simp at h
      · split at h
        · simp at h
        · rename_i config w1 hl
          split at h
          · simp at h
          · rename_i w2 hs
            simp only [Prod.mk.injEq] at h
            obtain ⟨-, h2⟩ := h
            subst h2
            obtain ⟨-, -, hw2⟩ := save_config_ok _ _ _ hs
            obtain ⟨⟨d, hd⟩, -, -, -, he1, -⟩ := load_or_create_ok _ _ _ hl
            subst hw2
            exact ⟨rfl, ⟨d, by simpa [he1] using hd⟩, ⟨config, w1, hl, rfl⟩⟩

theorem load_or_create_absent_default (w : World) (c : AppConfig) (w1 : World)
    (habs : w.configFile = ConfigFile.absent)
    (h : load_or_create_config w = Except.ok (c, w1)) :
    c = { storage_path := "", theme := none } := by
  unfold load_or_create_config get_app_dir at h
  split at h
  · simp at h
  · split at h
    · rename_i c0 hc
      rw [habs] at hc
      simp at hc
    · simp at h
    · simp at h
    · split at h
      · simp only [Except.ok.injEq, Prod.mk.injEq] at h
        exact h.1.symm
      · simp at h

theorem load_or_create_valid_inv (w : World) (c c0 : AppConfig) (w1 : World)
    (hval : w.configFile = ConfigFile.valid c)
    (h : load_or_create_config w = Except.ok (c0, w1)) :
    c0 = c ∧ w1 = w := by
  unfold load_or_create_config get_app_dir at h
  split at h
  · simp at h
  · split at h
    · rename_i c1 hc
      rw [hval] at hc
      simp only [ConfigFile.valid.injEq] at hc
      simp only [Except.ok.injEq, Prod.mk.injEq] at h
      exact ⟨h.1.symm.trans hc.symm, h.2.symm⟩
    · simp at h
    · simp at h
    · rename_i hc
      rw [hval] at hc
      simp at hc

/-- A successful `load_or_create_config` returns exactly the record an
observer of the persisted configuration would read. -/
theorem load_or_create_persisted (w : World) (c : AppConfig) (w1 : World)
    (h : load_or_create_config w = Except.ok (c, w1)) :
    persisted_storage_path w = some c.storage_path ∧
      persisted_theme w = some c.theme := by
  unfold load_or_create_config get_app_dir at h
  split at h
  · simp at h
  · split at h
    · rename_i c0 hc
      simp only [Except.ok.injEq, Prod.mk.injEq] at h
      obtain ⟨h1, -⟩ := h
      subst h1
      unfold persisted_storage_path persisted_theme
      rw [hc]
      exact ⟨rfl, rfl⟩
    · simp at h
    · simp at h
    · rename_i hc
      split at h
      · simp only [Except.ok.injEq, Prod.mk.injEq] at h
        obtain ⟨h1, -⟩ := h
        subst h1
        unfold persisted_storage_path persisted_theme
        rw [hc]
        exact ⟨rfl, rfl⟩
      · simp at h

theorem fs_write_fs_other (w : World) (p doc q : String) (w' : World) (hne : q ≠ p)
    (h : fs_write w p doc = Except.ok w') : w'.fs q = w.fs q := by
  unfold fs_write at h
  split at h
  · simp at h
  · split at h
    · simp only [Except.ok.injEq] at h
      subst h
      exact if_neg hne
    · simp at h

theorem ne_append_file (d f : String) (hf : 0 < f.length) : d ≠ d ++ "/" ++ f := by
  intro h
  have h2 := congrArg String.length h
  rw [String.length_append, String.length_append] at h2
  have h3 : ("/" : String).length = 1 := rfl
  rw [h3] at h2
  omega

/-- A base system used by several concrete runs: an existing directory
`"dir"`, everything writable, and a valid persisted configuration whose
`storage_path` is `"old"`, matching the in-memory override. -/
def s_valid_base : Sys :=
  { world :=
      { fs := fun p => if p = "dir" then FileState.dir else FileState.absent
        writable := fun _ => true
        exeDir := Except.ok "app"
        configFile := ConfigFile.valid { storage_path := "old", theme := some "dark" }
        configWritable := true }
    mem := "old" }

/-- A system whose `todos.json` under the override directory exists but
cannot be read (permission denied). -/
def s_unreadable_todos : Sys :=
  { world :=
      { fs := fun p => if p = "d/todos.json" then FileState.unreadable else FileState.absent
        writable := fun _ => true
        exeDir := Except.ok "app"
        configFile := ConfigFile.absent
        configWritable := true }
    mem := "d" }

/-- A system in which the in-memory override and the persisted
configuration both hold `"X"`, but the configuration file cannot be
written. -/
def s_config_unwritable : Sys :=
  { world :=
      { fs := fun _ => FileState.absent
        writable := fun _ => true
        exeDir := Except.ok "app"
        configFile := ConfigFile.valid { storage_path := "X", theme := none }
        configWritable := false }
    mem := "X" }

/-- C1, counterexample: the claim says a read failure other than a missing
file is returned as an error and never as `"[]"`.  In this system the
resolved `todos.json` exists but is unreadable, yet `load_todos` returns
`Except.ok "[]"`. -/
theorem C1_counterexample :
    s_unreadable_todos.world.fs "d/todos.json" ≠ FileState.absent ∧
    load_todos s_unreadable_todos = Except.ok "[]" :=
  ⟨by decide, rfl⟩

/-- C1 (amended): once the data-file path resolves, `load_todos` and
`load_lists` always succeed, returning the file's content when it is a
readable regular file and the literal `"[]"` on every other read failure
(missing file, directory in the way, permission denied); no read error is
ever propagated to the caller. -/
theorem C1_load_swallows_all_read_errors (s : Sys) :
    load_todos s = (resolve_data_path s "todos.json").map (read_or_empty s.world) ∧
    load_lists s = (resolve_data_path s "lists.json").map (read_or_empty s.world) := by
  constructor
  · unfold load_todos
    cases hr : resolve_data_path s "todos.json" with
    | error e => simp [Except.map]
    | ok p =>
      unfold read_to_string read_or_empty
      cases hf : s.world.fs p <;> simp [Except.map, hf]
  · unfold load_lists
    cases hr : resolve_data_path s "lists.json" with
    | error e => simp [Except.map]
    | ok p =>
      unfold read_to_string read_or_empty
      cases hf : s.world.fs p <;> simp [Except.map, hf]

/-- C2, counterexample: the claim says that even after a failed
`setStoragePath` the in-memory override and the persisted configuration
never diverge.  Here `set_storage_path ""` fails (the configuration file
cannot be written) after having already cleared the in-memory override,
so afterwards the in-memory value is `""` while `loadStoragePath` still
reports `"X"`. -/
theorem C2_counterexample :
    (set_storage_path "" s_config_unwritable).1 = Except.error "config write error" ∧
    (set_storage_path "" s_config_unwritable).2.mem = "" ∧
    load_storage_path (set_storage_path "" s_config_unwritable).2.world =
      Except.ok ("X", (set_storage_path "" s_config_unwritable).2.world) ∧
    ("" : String) ≠ "X" :=
  ⟨rfl, rfl, rfl, by decide⟩

/-- C2 (amended): after a successful `set_storage_path` the in-memory
override and the persisted configuration agree on the new path; only a
failed call can leave them diverged (the empty-path branch clears the
in-memory value before persisting). -/
theorem C2_success_sets_both (path : String) (s s' : Sys)
    (h : set_storage_path path s = (Except.ok (), s')) :
    s'.mem = path ∧ load_storage_path s'.world = Except.ok (path, s'.world) := by
  obtain ⟨hm, ⟨d, hd⟩, ⟨config, w1, -, hc⟩⟩ := set_storage_path_ok path s s' h
  exact ⟨hm, load_storage_path_of_valid s'.world _ d hc hd⟩

/-- Witness for `C2_success_sets_both` at a concrete successful call. -/
theorem C2_success_sets_both_witness :
    (set_storage_path "" s_valid_base).2.mem = "" ∧
    load_storage_path (set_storage_path "" s_valid_base).2.world =
      Except.ok ("", (set_storage_path "" s_valid_base).2.world) :=
  C2_success_sets_both "" s_valid_base (set_storage_path "" s_valid_base).2 rfl

/-- C3, counterexample: the claim quantifies over every path that does not
exist; the empty string names no existing path, yet `set_storage_path ""`
succeeds (it takes the clear-override branch), instead of failing with
`InvalidPathError`. -/
theorem C3_counterexample :
    path_exists s_valid_base.world "" = false ∧
    (set_storage_path "" s_valid_base).1 = Except.ok () :=
  ⟨by decide, rfl⟩

/-- C3 (amended): for every NON-empty path that does not exist or is not a
directory, `set_storage_path` fails with the corresponding
`InvalidPathError` message and leaves the whole state (in-memory override
and persisted configuration) exactly as it was. -/
theorem C3_nonempty_invalid_path_rejected (path : String) (s : Sys) (hne : path ≠ "")
    (h : path_exists s.world path = false ∨ is_dir s.world path = false) :
    ((set_storage_path path s).1 = Except.error "Path does not exist" ∨
      (set_storage_path path s).1 = Except.error "Path is not a directory") ∧
    (set_storage_path path s).2 = s := by
  have hE : path.isEmpty = false := by
    cases hE : path.isEmpty
    · rfl
    · exact absurd ((String.isEmpty_iff path).mp hE) hne
  unfold set_storage_path
  rw [hE]
  simp only [Bool.false_eq_true, if_false]
  cases hex : path_exists s.world path
  · simp
  · cases hdir : is_dir s.world path
    · simp
    · rcases h with h | h
      · rw [hex] at h
        exact absurd h (by simp)
      · rw [hdir] at h
        exact absurd h (by simp)

/-- Witness for `C3_nonempty_invalid_path_rejected` at a concrete
nonexistent path. -/
theorem C3_nonempty_invalid_path_rejected_witness :
    (((set_storage_path "nope" s_valid_base).1 = Except.error "Path does not exist" ∨
      (set_storage_path "nope" s_valid_base).1 = Except.error "Path is not a directory") ∧
     (set_storage_path "nope" s_valid_base).2 = s_valid_base) :=
  C3_nonempty_invalid_path_rejected "nope" s_valid_base (by decide) (Or.inl (by decide))

/-- C4: if a save of either collection succeeds and nothing else happens
in between, loading the same collection returns the saved document
byte for byte. -/
theorem C4_save_load_roundtrip (doc : String) (s s' : Sys) :
    (save_todos doc s = (Except.ok (), s') → load_todos s' = Except.ok doc) ∧
    (save_lists doc s = (Except.ok (), s') → load_lists s' = Except.ok doc) := by
  constructor
  · intro h
    unfold save_todos at h
    split at h
    · simp at h
    · rename_i p hp
      split at h
      · simp at h
      · rename_i w1 hw
        simp only [Prod.mk.injEq] at h
        obtain ⟨-, h2⟩ := h
        subst h2
        unfold fs_write at hw
        split at hw
        · simp at hw
        · split at hw
          · simp only [Except.ok.injEq] at hw
            subst hw
            unfold load_todos
            have hres :
                resolve_data_path
                  { s with world :=
                      { s.world with
                        fs := fun q => if q = p then FileState.file doc else s.world.fs q } }
                  "todos.json" = Except.ok p := hp
            rw [hres]
            unfold read_to_string
            simp
          · simp at hw
  · intro h
    unfold save_lists at h
    split at h
    · simp at h
    · rename_i p hp
      split at h
      · simp at h
      · rename_i w1 hw
        simp only [Prod.mk.injEq] at h
        obtain ⟨-, h2⟩ := h
        subst h2
        unfold fs_write at hw
        split at hw
        · simp at hw
        · split at hw
          · simp only [Except.ok.injEq] at hw
            subst hw
            unfold load_lists
            have hres :
                resolve_data_path
                  { s with world :=
                      { s.world with
                        fs := fun q => if q = p then FileState.file doc else s.world.fs q } }
                  "lists.json" = Except.ok p := hp
            rw [hres]
            unfold read_to_string
            simp
          · simp at hw

/-- Witness for `C4_save_load_roundtrip` at a concrete successful save. -/
theorem C4_save_load_roundtrip_witness :
    load_todos (save_todos "[1]" s_valid_base).2 = Except.ok "[1]" :=
  (C4_save_load_roundtrip "[1]" s_valid_base (save_todos "[1]" s_valid_base).2).1 rfl

/-- A system with empty override whose default (executable-adjacent)
directory `"d"` does not exist; writes below it fail, as the OS would
refuse them. -/
def s_absent_default_dir : Sys :=
  { world :=
      { fs := fun _ => FileState.absent
        writable := fun _ => false
        exeDir := Except.ok "d"
        configFile := ConfigFile.absent
        configWritable := true }
    mem := "" }

/-- C5, counterexample: the claim says the default data directory is
created if absent.  With the override empty and the default directory
`"d"` absent, a save resolves to `"d/todos.json"`, fails, and leaves the
directory still absent — no operation ever creates it (the source has no
`create_dir` call). -/
theorem C5_counterexample :
    s_absent_default_dir.world.fs "d" = FileState.absent ∧
    resolve_data_path s_absent_default_dir "todos.json" = Except.ok "d/todos.json" ∧
    (save_todos "[]" s_absent_default_dir).1 = Except.error "write error" ∧
    (save_todos "[]" s_absent_default_dir).2.world.fs "d" = FileState.absent :=
  ⟨rfl, rfl, rfl, rfl⟩

/-- C5 (amended): with the override empty, loads and saves resolve to the
fixed per-collection filename inside the executable's containing
directory, which is NOT created if absent (a save never touches the
directory entry itself); with a non-empty override, they resolve to the
override joined with the fixed filename. -/
theorem C5_path_resolution (s : Sys) (d doc : String) :
    (s.mem = "" → get_app_dir s.world = Except.ok d →
      resolve_data_path s "todos.json" = Except.ok (d ++ "/" ++ "todos.json") ∧
      resolve_data_path s "lists.json" = Except.ok (d ++ "/" ++ "lists.json") ∧
      (save_todos doc s).2.world.fs d = s.world.fs d ∧
      (save_lists doc s).2.world.fs d = s.world.fs d) ∧
    (s.mem ≠ "" →
      resolve_data_path s "todos.json" = Except.ok (s.mem ++ "/" ++ "todos.json") ∧
      resolve_data_path s "lists.json" = Except.ok (s.mem ++ "/" ++ "lists.json")) := by
  constructor
  · intro hm hd
    have hE : s.mem.isEmpty = true := (String.isEmpty_iff s.mem).mpr hm
    have hrt : resolve_data_path s "todos.json" = Except.ok (d ++ "/" ++ "todos.json") := by
      unfold resolve_data_path
      rw [hE, hd]
      simp
    have hrl : resolve_data_path s "lists.json" = Except.ok (d ++ "/" ++ "lists.json") := by
      unfold resolve_data_path
      rw [hE, hd]
      simp
    refine ⟨hrt, hrl, ?_, ?_⟩
    · unfold save_todos
      rw [hrt]
      dsimp only
      cases hw : fs_write s.world (d ++ "/" ++ "todos.json") doc with
      | error e => simp [hw]
      | ok w1 =>
        simp only [hw]
        exact fs_write_fs_other s.world _ doc d w1
          (ne_append_file d "todos.json" (by decide)) hw
    · unfold save_lists
      rw [hrl]
      dsimp only
      cases hw : fs_write s.world (d ++ "/" ++ "lists.json") doc with
      | error e => simp [hw]
      | ok w1 =>
        simp only [hw]
        exact fs_write_fs_other s.world _ doc d w1
          (ne_append_file d "lists.json" (by decide)) hw
  · intro hm
    have hE : s.mem.isEmpty = false := by
      cases hE : s.mem.isEmpty
      · rfl
      · exact absurd ((String.isEmpty_iff s.mem).mp hE) hm
    constructor
    · unfold resolve_data_path
      rw [hE]
      simp
    · unfold resolve_data_path
      rw [hE]
      simp

/-- Witness for `C5_path_resolution` at concrete systems, one per branch. -/
theorem C5_path_resolution_witness :
    (resolve_data_path s_absent_default_dir "todos.json" = Except.ok ("d" ++ "/" ++ "todos.json") ∧
      resolve_data_path s_absent_default_dir "lists.json" = Except.ok ("d" ++ "/" ++ "lists.json") ∧
      (save_todos "[]" s_absent_default_dir).2.world.fs "d" = s_absent_default_dir.world.fs "d" ∧
      (save_lists "[]" s_absent_default_dir).2.world.fs "d" = s_absent_default_dir.world.fs "d") ∧
    (resolve_data_path s_valid_base "todos.json" =
        Except.ok (s_valid_base.mem ++ "/" ++ "todos.json") ∧
      resolve_data_path s_valid_base "lists.json" =
        Except.ok (s_valid_base.mem ++ "/" ++ "lists.json")) :=
  ⟨(C5_path_resolution s_absent_default_dir "d" "[]").1 rfl rfl,
   (C5_path_resolution s_valid_base "d" "[]").2 (by decide)⟩

/-- A world whose configuration file exists but is not valid JSON for the
record shape. -/
def w_bad_config : World :=
  { fs := fun _ => FileState.absent
    writable := fun _ => true
    exeDir := Except.ok "app"
    configFile := ConfigFile.malformed
    configWritable := true }

/-- C10: when loading or creating the configuration fails for any reason,
startup swallows the error, keeps the world as it is, and initializes the
in-memory storage-path override to the empty string — even though the
explicit load reports the error (the hypothesis). -/
theorem C10_startup_swallows_config_errors (w : World) (e : String)
    (h : load_or_create_config w = Except.error e) :
    restart_init w = { world := w, mem := "" } := by
  unfold restart_init
  rw [h]

/-- Witness for `C10_startup_swallows_config_errors` on a malformed
configuration file. -/
theorem C10_startup_swallows_config_errors_witness :
    restart_init w_bad_config = { world := w_bad_config, mem := "" } :=
  C10_startup_swallows_config_errors w_bad_config "config format error" rfl

theorem bnot_isEmpty_eq_decide (l : List Json) : (!l.isEmpty) = decide (0 < l.length) := by
  cases l with
  | nil => rfl
  | cons a as => simp

/-- The element test from the source coincides with the specification's
description of it, for every JSON value. -/
theorem list_matches_eq_spec (list_id : String) (j : Json) :
    list_matches list_id j = spec_list_matches list_id j := by
  unfold list_matches spec_list_matches
  cases hid : j.get "id" with
  | none =>
    cases htd : j.get "todos" with
    | none => simp [hid, htd]
    | some u => cases u <;> simp [hid, htd]
  | some v =>
    cases htd : j.get "todos" with
    | none => cases v <;> simp [hid, htd, Json.asStr]
    | some u =>
      cases v <;> cases u <;>
        simp [hid, htd, Json.asStr, Json.asArray, bnot_isEmpty_eq_decide]

/-- The three lists documents used as examples in the specification. -/
def lists_doc_match : String := "[\x7b\"id\":\"L1\",\"todos\":[\x7b\"title\":\"a\"\x7d]\x7d]"

def lists_doc_empty_todos : String := "[\x7b\"id\":\"L1\",\"todos\":[]\x7d]"

def lists_doc_other_id : String := "[\x7b\"id\":\"L2\",\"todos\":[\x7b\"title\":\"a\"\x7d]\x7d]"

/-- C6: whatever lists document the load yields, `has_todos_in_list`
parses it as a generic JSON array and returns true iff some element has a
string `id` equal to the queried id and a non-empty `todos` array
(missing or wrongly-typed fields count as false); an unparseable or
non-array document is a `ParseError`, not a boolean.  The concrete
conjuncts run the specification's three examples plus two malformed
documents. -/
theorem C6_list_has_todos_spec :
    (∀ (list_id : String) (s : Sys) (doc : String),
        load_lists s = Except.ok doc →
        has_todos_in_list list_id s =
          (from_str_vec doc).map (fun lists => lists.any (spec_list_matches list_id))) ∧
    has_todos_in_list "L1" (sys_with_lists lists_doc_match) = Except.ok true ∧
    has_todos_in_list "L1" (sys_with_lists lists_doc_empty_todos) = Except.ok false ∧
    has_todos_in_list "L1" (sys_with_lists lists_doc_other_id) = Except.ok false ∧
    has_todos_in_list "L1" (sys_with_lists "\x7b\x7d") =
      Except.error "invalid type: expected a sequence" ∧
    has_todos_in_list "L1" (sys_with_lists "not json") = Except.error "expected ident" := by
  refine ⟨?_, rfl, rfl, rfl, rfl, rfl⟩
  intro list_id s doc h
  unfold has_todos_in_list
  rw [h]
  dsimp only
  have hfun : list_matches list_id = spec_list_matches list_id :=
    funext (fun j => list_matches_eq_spec list_id j)
  cases hp : from_str_vec doc with
  | error e => simp [hp, Except.map]
  | ok l => simp [hp, Except.map, hfun]

/-- Witness for the quantified conjunct of `C6_list_has_todos_spec` at the
specification's first example document. -/
theorem C6_list_has_todos_spec_witness :
    has_todos_in_list "L1" (sys_with_lists lists_doc_match) =
      (from_str_vec lists_doc_match).map
        (fun lists => lists.any (spec_list_matches "L1")) :=
  C6_list_has_todos_spec.1 "L1" (sys_with_lists lists_doc_match) lists_doc_match rfl

/-- C7: a successful `set_storage_path` on an existing directory leaves
the persisted configuration holding that directory; rebuilding the
process state from the persisted configuration (the restart sequence of
`main`) re-initializes the in-memory override to it, and
`load_storage_path` then returns it.  The world reached right after the
persist and before the in-memory update is the same world, so the
persisted value is authoritative across a crash between the two. -/
theorem C7_set_persists_and_survives_restart (dir : String) (s s' : Sys)
    (_hdir : is_dir s.world dir = true)
    (h : set_storage_path dir s = (Except.ok (), s')) :
    persisted_storage_path s'.world = some dir ∧
    (restart_init s'.world).mem = dir ∧
    load_storage_path (restart_init s'.world).world =
      Except.ok (dir, (restart_init s'.world).world) := by
  obtain ⟨-, ⟨d, hd⟩, ⟨config, w1, -, hc⟩⟩ := set_storage_path_ok dir s s' h
  have hr := restart_init_of_valid s'.world _ d hc hd
  refine ⟨?_, ?_, ?_⟩
  · unfold persisted_storage_path
    rw [hc]
  · rw [hr]
  · rw [hr]
    exact load_storage_path_of_valid s'.world _ d hc hd

/-- Witness for `C7_set_persists_and_survives_restart` at a concrete
directory. -/
theorem C7_set_persists_and_survives_restart_witness :
    persisted_storage_path (set_storage_path "dir" s_valid_base).2.world = some "dir" ∧
    (restart_init (set_storage_path "dir" s_valid_base).2.world).mem = "dir" ∧
    load_storage_path (restart_init (set_storage_path "dir" s_valid_base).2.world).world =
      Except.ok ("dir", (restart_init (set_storage_path "dir" s_valid_base).2.world).world) :=
  C7_set_persists_and_survives_restart "dir" s_valid_base
    (set_storage_path "dir" s_valid_base).2 (by decide) rfl

/-- A fresh world: no configuration file yet, everything writable. -/
def w_fresh : World :=
  { fs := fun _ => FileState.absent
    writable := fun _ => true
    exeDir := Except.ok "app"
    configFile := ConfigFile.absent
    configWritable := true }

/-- `w_fresh` right after the default configuration has been created. -/
def w_fresh_created : World :=
  { w_fresh with configFile := ConfigFile.valid { storage_path := "", theme := none } }

/-- `w_fresh` after `set_theme "dark"`. -/
def w_fresh_dark : World :=
  { w_fresh with configFile := ConfigFile.valid { storage_path := "", theme := some "dark" } }

/-- C8: `get_theme` returns `"light"` on a brand-new configuration (file
absent, or record present with no theme); after a successful
`set_theme t`, `get_theme` returns `t`, and a fresh
`load_or_create_config` of the persisted record also reports theme `t`. -/
theorem C8_theme_default_and_roundtrip :
    (∀ (w : World) (t : String) (w' : World), w.configFile = ConfigFile.absent →
      get_theme w = Except.ok (t, w') → t = "light") ∧
    (∀ (w : World) (c : AppConfig) (t : String) (w' : World),
      w.configFile = ConfigFile.valid c → c.theme = none →
      get_theme w = Except.ok (t, w') → t = "light") ∧
    (∀ (t : String) (w w' : World), set_theme t w = Except.ok w' →
      get_theme w' = Except.ok (t, w') ∧
      ∃ c, load_or_create_config w' = Except.ok (c, w') ∧ c.theme = some t) := by
  refine ⟨?_, ?_, ?_⟩
  · intro w t w' habs h
    unfold get_theme at h
    split at h
    · simp at h
    · rename_i config w1 hl
      have hc := load_or_create_absent_default w config w1 habs hl
      subst hc
      simp only [Except.ok.injEq, Prod.mk.injEq] at h
      exact h.1.symm
  · intro w c t w' hval hnone h
    unfold get_theme at h
    split at h
    · simp at h
    · rename_i config w1 hl
      obtain ⟨hc0, -⟩ := load_or_create_valid_inv w c config w1 hval hl
      subst hc0
      simp only [Except.ok.injEq, Prod.mk.injEq] at h
      rw [← h.1, hnone]
      rfl
  · intro t w w' h
    unfold set_theme at h
    split at h
    · simp at h
    · rename_i config w1 hl
      obtain ⟨⟨d, hd⟩, -, hw'⟩ := save_config_ok _ _ _ h
      subst hw'
      constructor
      · unfold get_theme
        rw [load_or_create_of_valid
          { w1 with configFile := ConfigFile.valid { config with theme := some t } }
          { config with theme := some t } d rfl hd]
        rfl
      · exact ⟨{ config with theme := some t },
          load_or_create_of_valid
            { w1 with configFile := ConfigFile.valid { config with theme := some t } }
            { config with theme := some t } d rfl hd, rfl⟩

/-- Witness for `C8_theme_default_and_roundtrip` at concrete runs: the
default on a fresh configuration and a `set_theme "dark"` round-trip. -/
theorem C8_theme_default_and_roundtrip_witness :
    ("light" : String) = "light" ∧
    (get_theme w_fresh_dark = Except.ok ("dark", w_fresh_dark) ∧
      ∃ c, load_or_create_config w_fresh_dark = Except.ok (c, w_fresh_dark) ∧
        c.theme = some "dark") :=
  ⟨C8_theme_default_and_roundtrip.1 w_fresh "light" w_fresh_created rfl rfl,
   C8_theme_default_and_roundtrip.2.2 "dark" w_fresh w_fresh_dark rfl⟩

/-- C9: each configuration mutation rewrites the whole record but changes
only its own field: a successful `set_theme` preserves the persisted
`storage_path`, and a successful `set_storage_path` preserves the
persisted `theme` (an absent file counting as the all-defaults record). -/
theorem C9_mutation_frame :
    (∀ (t : String) (w w' : World), set_theme t w = Except.ok w' →
      persisted_storage_path w' = persisted_storage_path w) ∧
    (∀ (p : String) (s s' : Sys), set_storage_path p s = (Except.ok (), s') →
      persisted_theme s'.world = persisted_theme s.world) := by
  constructor
  · intro t w w' h
    unfold set_theme at h
    split at h
    · simp at h
    · rename_i config w1 hl
      obtain ⟨-, -, hw'⟩ := save_config_ok _ _ _ h
      subst hw'
      obtain ⟨hsp, -⟩ := load_or_create_persisted w config w1 hl
      rw [hsp]
      unfold persisted_storage_path
      rfl
  · intro p s s' h
    obtain ⟨-, -, ⟨config, w1, hl, hc⟩⟩ := set_storage_path_ok p s s' h
    obtain ⟨-, hth⟩ := load_or_create_persisted s.world config w1 hl
    rw [hth]
    unfold persisted_theme
    rw [hc]

/-- Witness for `C9_mutation_frame` at concrete successful mutations. -/
theorem C9_mutation_frame_witness :
    persisted_storage_path w_fresh_dark = persisted_storage_path w_fresh ∧
    persisted_theme (set_storage_path "dir" s_valid_base).2.world =
      persisted_theme s_valid_base.world :=
  ⟨C9_mutation_frame.1 "dark" w_fresh w_fresh_dark rfl,
   C9_mutation_frame.2 "dir" s_valid_base (set_storage_path "dir" s_valid_base).2 rfl⟩

end Todo2
